import Mathlib

/-!
Verification of the generated documentation data file
`src/api/wasmtime_environ/isa/sidebar-items.js`.

The file consists of a single JavaScript statement:

  initSidebarItems(LITERAL);

where LITERAL is a static object literal mapping category strings to
arrays of two-element string arrays. We embed a small fragment of
JavaScript syntax (string literals, array literals, object literals,
variable references, top-level call and variable-declaration
statements), transcribe the file into that syntax, and give the
evaluation of literal expressions in an environment. All claims are
settled against this embedding.
-/

/-- A JavaScript runtime value, restricted to the shapes that occur in
the file: strings, arrays, and objects with string keys. -/
inductive JsValue where
  | str : String → JsValue
  | arr : List JsValue → JsValue
  | obj : List (String × JsValue) → JsValue

mutual

/-- A JavaScript expression: string literal, variable reference, array
literal, or object literal. -/
inductive JsExpr where
  | strLit : String → JsExpr
  | var : String → JsExpr
  | arrLit : JsExprList → JsExpr
  | objLit : JsFieldList → JsExpr

/-- A list of expressions (elements of an array literal, or arguments
of a call). -/
inductive JsExprList where
  | nil : JsExprList
  | cons : JsExpr → JsExprList → JsExprList

/-- A list of key/expression fields of an object literal. -/
inductive JsFieldList where
  | nil : JsFieldList
  | cons : String → JsExpr → JsFieldList → JsFieldList

end

/-- A top-level JavaScript statement: a call of a named function on a
list of argument expressions, or a binding definition (variable
declaration). The source file contains exactly one call statement. -/
inductive JsStmt where
  | exprCall : String → JsExprList → JsStmt
  | varDecl : String → JsExpr → JsStmt

mutual

/-- Evaluate a literal expression in an environment mapping variable
names to optional values. Evaluation of a variable looks it up in the
environment; literals evaluate structurally. -/
def evalExpr (env : String → Option JsValue) : JsExpr → Option JsValue
  | .strLit s => some (.str s)
  | .var x => env x
  | .arrLit es => (evalExprList env es).map JsValue.arr
  | .objLit fs => (evalFieldList env fs).map JsValue.obj

/-- Evaluate each expression of a list, failing if any fails. -/
def evalExprList (env : String → Option JsValue) : JsExprList → Option (List JsValue)
  | .nil => some []
  | .cons e es =>
      (evalExpr env e).bind fun v => (evalExprList env es).map fun vs => v :: vs

/-- Evaluate each field of an object literal, failing if any fails. -/
def evalFieldList (env : String → Option JsValue) :
    JsFieldList → Option (List (String × JsValue))
  | .nil => some []
  | .cons k e fs =>
      (evalExpr env e).bind fun v => (evalFieldList env fs).map fun kvs => (k, v) :: kvs

end

/-- The expression form of one sidebar entry: the two-element array
literal holding a symbol name and its description. -/
def entryE (name desc : String) : JsExpr :=
  .arrLit (.cons (.strLit name) (.cons (.strLit desc) .nil))

/-- An array literal holding exactly one element. -/
def singletonArr (e : JsExpr) : JsExpr :=
  .arrLit (.cons e .nil)

/-- The object literal passed to initSidebarItems, transcribed verbatim
from src/api/wasmtime_environ/isa/sidebar-items.js. -/
def sidebarArgExpr : JsExpr :=
  .objLit
    (.cons "enum"
      (singletonArr (entryE "CallConv" "Calling convention identifiers."))
    (.cons "mod"
      (singletonArr (entryE "fde" ""))
    (.cons "struct"
      (singletonArr (entryE "TargetFrontendConfig" "This struct provides information that a frontend may need to know about a target to produce Cranelift IR for the target."))
    (.cons "trait"
      (singletonArr (entryE "TargetIsa" "Methods that are specialized to a target ISA. Implies a Display trait that shows the shared flags, as well as any isa-specific flags."))
    (.cons "type"
      (singletonArr (entryE "RegUnit" "Register units are the smallest units of register allocation."))
    .nil)))))

/-- The whole file as a sequence of top-level statements: a single call
of initSidebarItems on the object literal. -/
def sidebarItemsFile : List JsStmt :=
  [JsStmt.exprCall "initSidebarItems" (.cons sidebarArgExpr .nil)]

/-- The value form of one sidebar entry. -/
def entryV (name desc : String) : JsValue :=
  .arr [.str name, .str desc]

/-- The value the object literal evaluates to. -/
def sidebarItemsArg : JsValue :=
  .obj
    [("enum", .arr [entryV "CallConv" "Calling convention identifiers."]),
     ("mod", .arr [entryV "fde" ""]),
     ("struct", .arr [entryV "TargetFrontendConfig" "This struct provides information that a frontend may need to know about a target to produce Cranelift IR for the target."]),
     ("trait", .arr [entryV "TargetIsa" "Methods that are specialized to a target ISA. Implies a Display trait that shows the shared flags, as well as any isa-specific flags."]),
     ("type", .arr [entryV "RegUnit" "Register units are the smallest units of register allocation."])]

/-- Whether a value is a two-element array of two strings. -/
def isStringPair : JsValue → Bool
  | .arr [.str _, .str _] => true
  | _ => false

/-- Whether a value is an array all of whose elements are two-element
string pairs. -/
def isEntryArray : JsValue → Bool
  | .arr es => es.all isStringPair
  | _ => false

/-- Whether a value is a one-element array whose element is a
two-element string pair. -/
def isSingletonEntryArray : JsValue → Bool
  | .arr [e] => isStringPair e
  | _ => false

/-- The keys of an object value, in order of appearance. -/
def objKeys : JsValue → List String
  | .obj kvs => kvs.map Prod.fst
  | _ => []

/-- The values of an object value, in order of appearance. -/
def objValues : JsValue → List JsValue
  | .obj kvs => kvs.map Prod.snd
  | _ => []

/-- Look up the first value stored under a key of an object value. -/
def objLookup : JsValue → String → Option JsValue
  | .obj kvs, k => (kvs.find? (fun kv => kv.1 == k)).map Prod.snd
  | _, _ => none

/-- The elements of an array value; empty for a non-array. -/
def arrElems : JsValue → List JsValue
  | .arr es => es
  | _ => []

/-- The entries stored under one category key. -/
def categoryEntries (v : JsValue) (k : String) : List JsValue :=
  match objLookup v k with
  | some w => arrElems w
  | none => []

/-- All entries of the index, across every category, in order. -/
def allEntries : JsValue → List JsValue
  | .obj kvs => (kvs.map (fun kv => arrElems kv.2)).flatten
  | _ => []

/-- The name component of an entry. -/
def entryName : JsValue → Option String
  | .arr (.str n :: _) => some n
  | _ => none

/-- The description component of an entry. -/
def entryDesc : JsValue → Option String
  | .arr (_ :: .str d :: _) => some d
  | _ => none

/-- All symbol names of the index, across every category, in order. -/
def indexNames (v : JsValue) : List String :=
  (allEntries v).filterMap entryName

/-- All descriptions of the index, across every category, in order. -/
def indexDescs (v : JsValue) : List String :=
  (allEntries v).filterMap entryDesc

/-- Whether the category holds an entry whose name component is the
given string. -/
def categoryHasEntryNamed (v : JsValue) (cat name : String) : Bool :=
  (categoryEntries v cat).any (fun e => entryName e == some name)

/-- Whether an expression is a two-element array literal of two string
literals. -/
def isEntryExpr : JsExpr → Bool
  | .arrLit (.cons (.strLit _) (.cons (.strLit _) .nil)) => true
  | _ => false

/-- Whether every expression of the list is an entry literal. -/
def allEntryExprs : JsExprList → Bool
  | .nil => true
  | .cons e es => isEntryExpr e && allEntryExprs es

/-- Whether an expression is an array literal of entry literals. -/
def isEntryArrayExpr : JsExpr → Bool
  | .arrLit es => allEntryExprs es
  | _ => false

/-- Whether every field of an object literal maps to an array literal
of entry literals. -/
def allFieldsEntryArrays : JsFieldList → Bool
  | .nil => true
  | .cons _ e fs => isEntryArrayExpr e && allFieldsEntryArrays fs

/-- Whether an expression is a literal object mapping strings to arrays
of two-element string-pair literals. -/
def isCategoryObjectLiteral : JsExpr → Bool
  | .objLit fs => allFieldsEntryArrays fs
  | _ => false

/-- Whether a statement is a call of the named function. -/
def stmtIsCallTo (name : String) : JsStmt → Bool
  | .exprCall f _ => f == name
  | _ => false

/-- Whether a statement defines a binding. -/
def stmtDefinesBinding : JsStmt → Bool
  | .varDecl _ _ => true
  | _ => false

/-- The number of expressions in a list. -/
def exprListLength : JsExprList → Nat
  | .nil => 0
  | .cons _ es => exprListLength es + 1

/-- Claim C1: the only observable interface of the file is the single
call initSidebarItems on one argument, a literal object mapping
category strings to arrays of name/description pairs; the file makes
no other call, defines no binding, and contains no other statement. -/
theorem sidebar_file_single_call :
    sidebarItemsFile
      = [JsStmt.exprCall "initSidebarItems" (JsExprList.cons sidebarArgExpr JsExprList.nil)]
    ∧ sidebarItemsFile.length = 1
    ∧ exprListLength (JsExprList.cons sidebarArgExpr JsExprList.nil) = 1
    ∧ isCategoryObjectLiteral sidebarArgExpr = true
    ∧ sidebarItemsFile.all (stmtIsCallTo "initSidebarItems") = true
    ∧ sidebarItemsFile.all (fun s => !stmtDefinesBinding s) = true :=
  ⟨rfl, rfl, rfl, rfl, rfl, rfl⟩

/-- Claim C2: the object passed to initSidebarItems has exactly the
keys enum, mod, struct, trait, type, and under each key the value is
an array of two-element string pairs. -/
theorem sidebar_keys_and_values :
    objKeys sidebarItemsArg = ["enum", "mod", "struct", "trait", "type"]
    ∧ (objValues sidebarItemsArg).all isEntryArray = true :=
  ⟨rfl, rfl⟩

/-- Claim C3, counterexample: the object does not list exactly four
entries with all descriptions non-empty; it lists five entries and the
entry under mod has an empty description. -/
theorem sidebar_not_four_nonempty_entries :
    ¬((allEntries sidebarItemsArg).length = 4
      ∧ (indexDescs sidebarItemsArg).all (fun d => !(d == "")) = true) := by
  intro h
  exact absurd h.1 (by decide)

/-- Claim C3, amended: the object lists exactly five entries, each a
two-element string pair; four of them carry a non-empty one-line
description, and exactly one description is empty. -/
theorem sidebar_five_entries_four_described :
    (allEntries sidebarItemsArg).length = 5
    ∧ (allEntries sidebarItemsArg).all isStringPair = true
    ∧ ((indexDescs sidebarItemsArg).filter (fun d => !(d == ""))).length = 4
    ∧ ((indexDescs sidebarItemsArg).filter (fun d => d == "")).length = 1 := by
  refine ⟨rfl, rfl, ?_, ?_⟩ <;> decide

/-- Claim C4, counterexample: the key mod occurs in the object but is
outside the claimed category set of enum, struct, trait, type. -/
theorem sidebar_mod_key_outside_claimed_set :
    "mod" ∈ objKeys sidebarItemsArg
    ∧ "mod" ∉ (["enum", "struct", "trait", "type"] : List String) := by
  constructor
  · decide
  · decide

/-- Claim C4, amended: every key of the object passed to
initSidebarItems belongs to the set of enum, mod, struct, trait,
type; besides enums, structs, traits and type aliases the index also
has a module category. -/
theorem sidebar_keys_in_category_set :
    (objKeys sidebarItemsArg).all
      (fun k => (["enum", "mod", "struct", "trait", "type"] : List String).contains k)
      = true := by
  decide

/-- Claim C5: TargetIsa is listed under trait, CallConv under enum,
RegUnit under type, and TargetFrontendConfig under struct. -/
theorem sidebar_lists_four_symbols :
    categoryHasEntryNamed sidebarItemsArg "trait" "TargetIsa" = true
    ∧ categoryHasEntryNamed sidebarItemsArg "enum" "CallConv" = true
    ∧ categoryHasEntryNamed sidebarItemsArg "type" "RegUnit" = true
    ∧ categoryHasEntryNamed sidebarItemsArg "struct" "TargetFrontendConfig" = true :=
  ⟨rfl, rfl, rfl, rfl⟩

/-- Claim C6: the argument of initSidebarItems is a constant: its
evaluation is the same in any two environments, and in every
environment it yields the fixed mapping. -/
theorem sidebar_arg_constant (env1 env2 : String → Option JsValue) :
    evalExpr env1 sidebarArgExpr = evalExpr env2 sidebarArgExpr
    ∧ evalExpr env1 sidebarArgExpr = some sidebarItemsArg :=
  ⟨rfl, rfl⟩

/-- Witness for claim C6 at two concrete environments. -/
theorem sidebar_arg_constant_witness :
    evalExpr (fun _ => none) sidebarArgExpr
        = evalExpr (fun x => some (JsValue.str x)) sidebarArgExpr
    ∧ evalExpr (fun _ => none) sidebarArgExpr = some sidebarItemsArg :=
  sidebar_arg_constant (fun _ => none) (fun x => some (JsValue.str x))

/-- Claim C7: constructing the sidebar object never fails: evaluating
the object literal succeeds in every environment. -/
theorem sidebar_arg_construction_total (env : String → Option JsValue) :
    (evalExpr env sidebarArgExpr).isSome = true :=
  rfl

/-- Witness for claim C7 at a concrete environment. -/
theorem sidebar_arg_construction_total_witness :
    (evalExpr (fun _ => none) sidebarArgExpr).isSome = true :=
  sidebar_arg_construction_total (fun _ => none)

/-- Claim C8: under every key of the object the array holds exactly
one element, and that element is a two-element array of two strings. -/
theorem sidebar_each_category_single_pair :
    (objValues sidebarItemsArg).all isSingletonEntryArray = true :=
  rfl

/-- Claim C9: the single pair under mod is fde with the empty
description, while every pair under the other four keys carries a
non-empty description. -/
theorem sidebar_mod_entry_empty_desc :
    categoryEntries sidebarItemsArg "mod" = [entryV "fde" ""]
    ∧ (["enum", "struct", "trait", "type"] : List String).all
        (fun k => (categoryEntries sidebarItemsArg k).all
          (fun e => !(entryDesc e == some ""))) = true := by
  refine ⟨rfl, ?_⟩
  decide

/-- Claim C10: the symbol names are pairwise distinct across all
categories, and the keys appear in strictly ascending lexicographic
order. -/
theorem sidebar_names_distinct_keys_sorted :
    (indexNames sidebarItemsArg).Nodup
    ∧ List.Chain' (fun a b : String => a < b) (objKeys sidebarItemsArg) := by
  constructor
  · decide
  · show List.Chain' (fun a b : String => a < b) ["enum", "mod", "struct", "trait", "type"]
    simp only [List.chain'_cons, List.chain'_singleton, and_true]
    refine ⟨?_, ?_, ?_, ?_⟩ <;> (rw [String.lt_iff_toList_lt]; decide)
